import Mathlib

/-!
Verification of the Joint-A-SNN training script (main.py): a shallow
embedding over rational numbers of the composite loss, the dataset
transform pipelines, the training/evaluation loops, and the checkpoint
policy, together with theorems settling the specification claims.

Tensors are modelled as lists of rationals (a `Vec` is a flattened
tensor or one row of class scores; a `Mat` is a batch of rows).  The
transcendental primitives exp and log are abstracted into an `ExpLog`
record: every statement proved here holds for an arbitrary choice, in
particular for the real exp and log.
-/

namespace JointASNN

abbrev Vec := List ℚ

abbrev Mat := List Vec

/-- Abstract exponential and logarithm, standing for the real exp and
log used by torch softmax and log-softmax. -/
structure ExpLog where
  exp : ℚ → ℚ
  log : ℚ → ℚ

/-- Mean of a list of values, as torch.mean on a 1-d tensor. -/
def mean (l : List ℚ) : ℚ := l.sum / (l.length : ℚ)

/-- Elementwise product followed by summation: torch.sum(a * b, dim=1)
restricted to one row. -/
def dot (a b : Vec) : ℚ := ((a.zip b).map (fun p => p.1 * p.2)).sum

/-- torch.softmax on one row. -/
def softmaxRow (E : ExpLog) (v : Vec) : Vec :=
  v.map (fun x => E.exp x / (v.map E.exp).sum)

/-- torch.log_softmax on one row. -/
def logSoftmaxRow (E : ExpLog) (v : Vec) : Vec :=
  v.map (fun x => E.log (E.exp x / (v.map E.exp).sum))

/-- Division of a whole batch by a scalar temperature (main.py lines 87
and 97: output / temperature). -/
def matDivT (m : Mat) (T : ℚ) : Mat := m.map (fun r => r.map (fun x => x / T))

/-- torch.log_softmax(  , dim=1) on a batch. -/
def logSoftmaxMat (E : ExpLog) (m : Mat) : Mat := m.map (logSoftmaxRow E)

/-- torch.softmax(  , dim=1) on a batch. -/
def softmaxMat (E : ExpLog) (m : Mat) : Mat := m.map (softmaxRow E)

/-- torch.sum(a * b, dim=1) on a batch: one value per row. -/
def hadamardRowSums (a b : Mat) : List ℚ :=
  (a.zip b).map (fun p => dot p.1 p.2)

/-- Tensor.detach(): the forward value is unchanged, only autograd
tracking (outside this value-level model) is cut. -/
def detach {α : Type} (x : α) : α := x

/-- nn.CrossEntropyLoss() with integer class targets and the default
mean reduction: the mean over the batch of the negative log-softmax
score of the target class. -/
def cross_entropy (E : ExpLog) (output : Mat) (target : List ℕ) : ℚ :=
  -(mean ((output.zip target).map
      (fun p => (logSoftmaxRow E p.1).getD p.2 0)))

/-- main.py lines 86-90: kd_loss_function(output, target_output) =
-mean(sum(log_softmax(output / temperature, dim=1) * target_output,
dim=1)). -/
def kd_loss_function (E : ExpLog) (temperature : ℚ)
    (output target_output : Mat) : ℚ :=
  -(mean (hadamardRowSums (logSoftmaxMat E (matDivT output temperature))
      target_output))

/-- main.py lines 96-99: get_logits(output) = softmax(output /
temperature, dim=1). -/
def get_logits (E : ExpLog) (temperature : ℚ) (output : Mat) : Mat :=
  softmaxMat E (matDivT output temperature)

/-- main.py line 93: the elementwise tensor
(fea - target_fea)^2 * ((fea > 0) | (target_fea > 0)).float(),
over flattened tensors of equal shape. -/
def featureLossVec (fea target_fea : Vec) : Vec :=
  (fea.zip target_fea).map
    (fun p => (p.1 - p.2) ^ 2 * (if 0 < p.1 ∨ 0 < p.2 then (1 : ℚ) else 0))

/-- main.py lines 92-94: feature_loss_function(fea, target_fea) =
torch.abs(loss).sum() where loss is `featureLossVec`. -/
def feature_loss_function (fea target_fea : Vec) : ℚ :=
  ((featureLossVec fea target_fea).map (fun x => |x|)).sum

/-- The pair of output lists returned by one forward pass of the model:
ann_outs and snn_outs.  Indices 0-3 hold class logits of the four
exits, indices 4-7 hold intermediate feature tensors. -/
structure Outputs where
  ann : List Mat
  snn : List Mat
deriving DecidableEq

/-- main.py lines 84-128: compute_loss.  The model is any function from
inputs to an `Outputs` pair; alpha, beta and temperature are the
keyword parameters of line 84.  Feature tensors are compared after
flattening, matching the shape-agnostic elementwise torch ops. -/
def compute_loss {Input : Type} (E : ExpLog) (model : Input → Outputs)
    (input : Input) (target : List ℕ)
    (alpha beta temperature : ℚ) : ℚ :=
  let o := model input
  let ann_outs := o.ann
  let snn_outs := o.snn
  let loss := cross_entropy E (ann_outs.getD 0 []) target
      + cross_entropy E (snn_outs.getD 0 []) target
  let middle1_loss := cross_entropy E (ann_outs.getD 1 []) target
      + cross_entropy E (snn_outs.getD 1 []) target
  let middle2_loss := cross_entropy E (ann_outs.getD 2 []) target
      + cross_entropy E (snn_outs.getD 2 []) target
  let middle3_loss := cross_entropy E (ann_outs.getD 3 []) target
      + cross_entropy E (snn_outs.getD 3 []) target
  let logit4 := get_logits E temperature (ann_outs.getD 0 [])
  let loss1by4 := kd_loss_function E temperature (ann_outs.getD 1 [])
      (detach logit4) * temperature ^ 2
  let loss2by4 := kd_loss_function E temperature (ann_outs.getD 2 [])
      (detach logit4) * temperature ^ 2
  let loss3by4 := kd_loss_function E temperature (ann_outs.getD 3 [])
      (detach logit4) * temperature ^ 2
  let loss1by1 := kd_loss_function E temperature (snn_outs.getD 1 [])
      (detach (get_logits E temperature (ann_outs.getD 1 []))) * temperature ^ 2
  let loss2by2 := kd_loss_function E temperature (snn_outs.getD 2 [])
      (detach (get_logits E temperature (ann_outs.getD 2 []))) * temperature ^ 2
  let loss3by3 := kd_loss_function E temperature (snn_outs.getD 3 [])
      (detach (get_logits E temperature (ann_outs.getD 3 []))) * temperature ^ 2
  let loss4by4 := kd_loss_function E temperature (snn_outs.getD 0 [])
      (detach (get_logits E temperature (ann_outs.getD 0 []))) * temperature ^ 2
  let feature_loss_1 := feature_loss_function ((snn_outs.getD 4 []).flatten)
      ((detach (ann_outs.getD 4 [])).flatten)
  let feature_loss_2 := feature_loss_function ((snn_outs.getD 5 []).flatten)
      ((detach (ann_outs.getD 5 [])).flatten)
  let feature_loss_3 := feature_loss_function ((snn_outs.getD 6 []).flatten)
      ((detach (ann_outs.getD 6 [])).flatten)
  let feature_loss_4 := feature_loss_function ((snn_outs.getD 7 []).flatten)
      ((detach (ann_outs.getD 7 [])).flatten)
  (1 - alpha) * (loss + middle1_loss + middle2_loss + middle3_loss)
    + alpha * (loss1by4 + loss2by4 + loss3by4
        + loss1by1 + loss2by2 + loss3by3 + loss4by4)
    + beta * (feature_loss_1 + feature_loss_2 + feature_loss_3 + feature_loss_4)

/-- Default value of the alpha parameter on main.py line 84. -/
def defaultAlpha : ℚ := 1 / 10

/-- Default value of the beta parameter on main.py line 84 (1e-6). -/
def defaultBeta : ℚ := 1 / 1000000

/-- Default value of the temperature parameter on main.py line 84. -/
def defaultTemperature : ℚ := 3

/-- Modelled from the wording of claim C1: one knowledge-distillation
term, -mean(sum(log_softmax(student / temperature) *
softmax(teacher / temperature), dim=1)) scaled by temperature^2. -/
def kdTerm (E : ExpLog) (temperature : ℚ) (student teacher : Mat) : ℚ :=
  -(mean (hadamardRowSums (logSoftmaxMat E (matDivT student temperature))
      (softmaxMat E (matDivT teacher temperature)))) * temperature ^ 2

/-- Modelled from the wording of claim C1: (1 - alpha) times the sum of
the eight cross-entropy losses, plus alpha times the sum of the seven
distillation terms (ANN exits 1-3 from detached ANN exit 0, SNN exits
0-3 from the detached matching ANN exit), plus beta times the sum of
the four feature-matching losses at indices 4-7. -/
def computeLossSpec {Input : Type} (E : ExpLog) (model : Input → Outputs)
    (input : Input) (target : List ℕ)
    (alpha beta temperature : ℚ) : ℚ :=
  let o := model input
  let a := fun i => o.ann.getD i ([] : Mat)
  let s := fun i => o.snn.getD i ([] : Mat)
  (1 - alpha) *
      (cross_entropy E (a 0) target + cross_entropy E (a 1) target
        + cross_entropy E (a 2) target + cross_entropy E (a 3) target
        + cross_entropy E (s 0) target + cross_entropy E (s 1) target
        + cross_entropy E (s 2) target + cross_entropy E (s 3) target)
    + alpha *
      (kdTerm E temperature (a 1) (detach (a 0))
        + kdTerm E temperature (a 2) (detach (a 0))
        + kdTerm E temperature (a 3) (detach (a 0))
        + kdTerm E temperature (s 0) (detach (a 0))
        + kdTerm E temperature (s 1) (detach (a 1))
        + kdTerm E temperature (s 2) (detach (a 2))
        + kdTerm E temperature (s 3) (detach (a 3)))
    + beta *
      (feature_loss_function ((s 4).flatten) ((detach (a 4)).flatten)
        + feature_loss_function ((s 5).flatten) ((detach (a 5)).flatten)
        + feature_loss_function ((s 6).flatten) ((detach (a 6)).flatten)
        + feature_loss_function ((s 7).flatten) ((detach (a 7)).flatten))

/-- The namespace of parsed command-line arguments, main.py lines
18-37, with the parser defaults as Lean default field values. -/
structure Args where
  workers : ℕ := 8
  epochs : ℕ := 300
  start_epoch : ℕ := 0
  batch_size : ℕ := 1024
  lr : ℚ := 1 / 10
  seed : ℕ := 1000
  simTime : ℕ := 4
  amp : Bool := true

/-- args.amp as a function of whether --amp appears on the command
line: the flag is declared with action store_false on line 35, so the
default is true and passing the flag stores false. -/
def ampValue (flagPresent : Bool) : Bool := !flagPresent

/-- The learning rate the SGD optimizer is constructed with on main.py
line 199: the literal 0.1, not args.lr. -/
def optimizerLr (_a : Args) : ℚ := 1 / 10

/-- One operation issued by the body of the batch loop of train,
main.py lines 140-154. -/
inductive TrainOp
  | zeroGrad
  | autocastF16Begin
  | computeLossOp
  | scalerScaleBackward
  | scalerStep
  | scalerUpdate
  | autocastF16End
  | backward
  | optimizerStep
deriving DecidableEq

/-- The sequence of operations one batch iteration performs, main.py
lines 140-154: under args.amp the loss is computed inside the cuda
float16 autocast block and the update goes through the GradScaler;
otherwise plain backward and optimizer step. -/
def batchOps (amp : Bool) : List TrainOp :=
  if amp then
    [TrainOp.zeroGrad, TrainOp.autocastF16Begin, TrainOp.computeLossOp,
      TrainOp.scalerScaleBackward, TrainOp.scalerStep, TrainOp.scalerUpdate,
      TrainOp.autocastF16End]
  else
    [TrainOp.zeroGrad, TrainOp.computeLossOp, TrainOp.backward,
      TrainOp.optimizerStep]

/-- main.py line 197: scaler = GradScaler() if args.amp else None.  The
GradScaler object itself is kept abstract in this model and stands as Unit. -/
def scalerInit (amp : Bool) : Option Unit :=
  if amp then some () else none

/-- One element of a torchvision transform pipeline as assembled by
build_cifar, main.py lines 40-81. -/
inductive Transform
  | randomCrop (size padding : ℕ)
  | randomHorizontalFlip
  | cifar10Policy
  | toTensor
  | cutout (n_holes length : ℕ)
  | normalize (meanC stdC : List ℚ)
deriving DecidableEq

/-- Whether a transform is a Normalize step. -/
def isNormalize : Transform → Bool
  | Transform.normalize _ _ => true
  | _ => false

/-- CIFAR-10 channel means of main.py line 50. -/
def cifar10Mean : List ℚ := [4914 / 10000, 4822 / 10000, 4465 / 10000]

/-- CIFAR-10 channel standard deviations of main.py line 50. -/
def cifar10Std : List ℚ := [2023 / 10000, 1994 / 10000, 2010 / 10000]

/-- CIFAR-100 channel means of main.py line 68. -/
def cifar100Mean : List ℚ := [5071 / 10000, 4867 / 10000, 4408 / 10000]

/-- CIFAR-100 channel standard deviations of main.py line 68. -/
def cifar100Std : List ℚ := [2675 / 10000, 2565 / 10000, 2761 / 10000]

/-- A torchvision dataset as configured by build_cifar: which corpus,
which split, the download flag, and the transform pipeline attached. -/
structure Dataset where
  cifar10 : Bool
  trainSplit : Bool
  download : Bool
  transform : List Transform
deriving DecidableEq

/-- main.py lines 40-81: build_cifar(use_cifar10, download, normalize)
returning (train_dataset, val_dataset). -/
def build_cifar (use_cifar10 download normalize : Bool) :
    Dataset × Dataset :=
  let aug := [Transform.randomCrop 32 4, Transform.randomHorizontalFlip,
    Transform.cifar10Policy, Transform.toTensor, Transform.cutout 1 16]
  if use_cifar10 then
    let aug := if normalize then
        aug ++ [Transform.normalize cifar10Mean cifar10Std]
      else aug
    let transform_train := aug
    let transform_test := [Transform.toTensor,
      Transform.normalize cifar10Mean cifar10Std]
    ({ cifar10 := true, trainSplit := true, download := download,
        transform := transform_train },
      { cifar10 := true, trainSplit := false, download := download,
        transform := transform_test })
  else
    let aug := if normalize then
        aug ++ [Transform.normalize cifar100Mean cifar100Std]
      else aug
    let transform_train := aug
    let transform_test := [Transform.toTensor,
      Transform.normalize cifar100Mean cifar100Std]
    ({ cifar10 := false, trainSplit := true, download := download,
        transform := transform_train },
      { cifar10 := false, trainSplit := false, download := download,
        transform := transform_test })

/-- The accumulator variables of the batch loop of train, main.py lines
132-136: running_loss, total and correct. -/
structure TrainState where
  running_loss : ℚ
  total : ℚ
  correct : ℚ
deriving DecidableEq

/-- One iteration of the batch loop of train, main.py lines 139-160,
at the value level: a batch contributes loss.item() to running_loss and
its label count to total; no statement of the loop updates correct. -/
def trainBatchStep (st : TrainState) (b : ℚ × ℕ) : TrainState :=
  { running_loss := st.running_loss + b.1,
    total := st.total + (b.2 : ℚ),
    correct := st.correct }

/-- main.py lines 131-164: train, abstracted over the per-batch losses
and batch sizes the framework produces and over the wall-clock minutes
elapsed; returns (running_loss / total, 100 * correct / total,
elapsed minutes). -/
def train (batches : List (ℚ × ℕ)) (elapsedMinutes : ℚ) : ℚ × ℚ × ℚ :=
  let st := batches.foldl trainBatchStep
    { running_loss := 0, total := 0, correct := 0 }
  (st.running_loss / st.total, 100 * st.correct / st.total, elapsedMinutes)

/-- The checkpoint-tracking state of the main loop, main.py lines
201-202 and 213-216: best_acc, best_epoch, and the list of epoch
indices at which torch.save ran. -/
structure LoopState where
  bestAcc : ℚ
  bestEpoch : ℕ
  saved : List ℕ
deriving DecidableEq

/-- main.py lines 213-216: the end of one epoch iteration, with facc
the test accuracy of this epoch. -/
def epochStep (s : LoopState) (epoch : ℕ) (facc : ℚ) : LoopState :=
  if s.bestAcc < facc then
    { bestAcc := facc, bestEpoch := epoch + 1, saved := s.saved ++ [epoch] }
  else s

/-- The epoch loop of main.py lines 204-216, folded over the list of
per-epoch test accuracies, starting at epoch index e. -/
def epochLoop : ℕ → LoopState → List ℚ → LoopState
  | _, s, [] => s
  | e, s, a :: rest => epochLoop (e + 1) (epochStep s e a) rest

/-- The whole main loop from the initial state best_acc = 0,
best_epoch = 0 of main.py lines 201-202. -/
def runLoop (accs : List ℚ) : LoopState :=
  epochLoop 0 { bestAcc := 0, bestEpoch := 0, saved := [] } accs

/-- The update best_acc receives in one epoch (main.py lines 213-214):
if best_acc < facc then facc else best_acc. -/
def bestStep (b a : ℚ) : ℚ := if b < a then a else b

/-- The value of best_acc after processing a list of test accuracies,
starting from best_acc = 0 as set on line 201. -/
def bestAfter (accs : List ℚ) : ℚ := accs.foldl bestStep 0

/-- The number of matched predictions and the number of examples that
one test batch contributes, main.py lines 172-177. -/
def testAccum (st : ℚ × ℚ) (b : ℕ × ℕ) : ℚ × ℚ :=
  (st.1 + (b.1 : ℚ), st.2 + (b.2 : ℚ))

/-- main.py lines 167-180: test, abstracted over the per-batch
(matched, batch size) counts; returns 100 * correct / total. -/
def test (batches : List (ℕ × ℕ)) : ℚ :=
  let st := batches.foldl testAccum (0, 0)
  100 * st.1 / st.2

/-- One epoch body of the main loop, main.py lines 204-216, in the
Except monad: every stage may raise, nothing is caught.  The arguments
are the abstract training pass (one call of train plus scheduler.step),
the evaluation pass, and the checkpoint write; the state is the model
and best_acc. -/
def epochBody {ε μ : Type} (trainOne : μ → Except ε μ)
    (testOne : μ → Except ε ℚ) (saveCkpt : μ → Except ε Unit) :
    ℕ → μ → ℚ → Except ε (μ × ℚ)
  | 0, m, best => Except.ok (m, best)
  | n + 1, m, best => do
    let m2 ← trainOne m
    let facc ← testOne m2
    if best < facc then do
      saveCkpt m2
      epochBody trainOne testOne saveCkpt n m2 facc
    else
      epochBody trainOne testOne saveCkpt n m2 best

/-- The script body of main.py lines 183-217 in the Except monad:
dataset construction, then model instantiation, then the epoch loop
with best_acc starting at 0; no try/except anywhere. -/
def mainScript {ε δ μ : Type} (buildData : Except ε δ)
    (mkModel : δ → Except ε μ) (trainOne : μ → Except ε μ)
    (testOne : μ → Except ε ℚ) (saveCkpt : μ → Except ε Unit)
    (epochs : ℕ) : Except ε (μ × ℚ) := do
  let d ← buildData
  let m ← mkModel d
  epochBody trainOne testOne saveCkpt epochs m 0

/-- The literal text of main.py line 138, the tqdm progress-bar
statement of train. -/
def line138 : String :=
  "    progress_bar = tqdm(train_loader, desc=\x27Epoch \x7b\x7d/\x7b\x7d\x27.format(i, len(train_loader), leave=False)"

/-- One character of a Python logical line, threaded through the state
(inside a single-quoted string literal, net parenthesis depth). -/
def pyParenStep (st : Bool × Int) (c : Char) : Bool × Int :=
  if st.1 then
    if c = '\x27' then (false, st.2) else (true, st.2)
  else if c = '\x27' then (true, st.2)
  else if c = '(' then (st.1, st.2 + 1)
  else if c = ')' then (st.1, st.2 - 1)
  else st

/-- Net count of unclosed parentheses at the end of a Python source
line, ignoring parentheses inside single-quoted string literals.  A
nonzero value means the statement does not end on this line; Python
then continues it into the following lines. -/
def pythonParenBalance (s : String) : Int :=
  (s.toList.foldl pyParenStep (false, 0)).2

/-- A concrete ExpLog instance used to evaluate statements on concrete
inputs. -/
def idExpLog : ExpLog := { exp := fun x => x + 1, log := fun x => x }

/-- A concrete forward-pass result used in concrete evaluations. -/
def exampleOutputs : Outputs :=
  { ann := [[[1, 2]], [[2, 1]], [[0, 0]], [[1, 1]], [[1, -1]], [[2]], [[3]], [[4]]],
    snn := [[[2, 2]], [[1, 0]], [[1, 2]], [[0, 1]], [[0, 2]], [[1]], [[0]], [[2]]] }

/-- A second concrete forward-pass result, different from the first. -/
def exampleOutputsB : Outputs := { ann := [[[9, 9]]], snn := [[[8]]] }

/-- A concrete model over Bool inputs whose two inputs give different
outputs. -/
def exampleModelA : Bool → Outputs :=
  fun b => if b then exampleOutputs else exampleOutputsB

/-- A concrete model over Unit inputs agreeing with exampleModelA at
the input true. -/
def exampleModelB : Unit → Outputs := fun _ => exampleOutputs

theorem kdTerm_eq_code (E : ExpLog) (T : ℚ) (st te : Mat) :
    kdTerm E T st te = kd_loss_function E T st (get_logits E T te) * T ^ 2 :=
  rfl

/-- Claim C1: for every model, input batch and integer-class target,
compute_loss equals the formula of the claim: (1 - alpha) times the sum
of the eight cross-entropy exit losses, plus alpha times the sum of the
seven distillation terms, plus beta times the sum of the four
feature-matching losses, at every choice of alpha, beta and
temperature, in particular at the defaults alpha = 1/10,
beta = 1/1000000, temperature = 3 of line 84. -/
theorem C1_compute_loss_formula {Input : Type} (E : ExpLog)
    (model : Input → Outputs) (input : Input) (target : List ℕ)
    (alpha beta temperature : ℚ) :
    compute_loss E model input target alpha beta temperature
        = computeLossSpec E model input target alpha beta temperature
      ∧ compute_loss E model input target
          defaultAlpha defaultBeta defaultTemperature
        = computeLossSpec E model input target (1 / 10) (1 / 1000000) 3 := by
  constructor
  · simp only [compute_loss, computeLossSpec, kdTerm_eq_code, detach]
    ring
  · simp only [compute_loss, computeLossSpec, kdTerm_eq_code, detach,
      defaultAlpha, defaultBeta, defaultTemperature]
    ring

lemma featureLossVec_nonneg (fea tf : Vec) :
    ∀ x ∈ featureLossVec fea tf, 0 ≤ x := by
  intro x hx
  simp only [featureLossVec, List.mem_map] at hx
  obtain ⟨p, _, rfl⟩ := hx
  apply mul_nonneg (sq_nonneg _)
  split <;> norm_num

/-- Claim C10: feature_loss_function equals the sum of the elementwise
tensor (fea - target_fea)^2 masked by the indicator of
fea > 0 or target_fea > 0; the elementwise tensor is pointwise
nonnegative, so the torch.abs of line 94 is the identity and the total
is nonnegative. -/
theorem C10_feature_loss_abs_id (fea tf : Vec) :
    feature_loss_function fea tf = (featureLossVec fea tf).sum
      ∧ (featureLossVec fea tf).map (fun x => |x|) = featureLossVec fea tf
      ∧ 0 ≤ feature_loss_function fea tf := by
  have h := featureLossVec_nonneg fea tf
  have hmap : (featureLossVec fea tf).map (fun x => |x|) = featureLossVec fea tf := by
    rw [List.map_congr_left (fun x hx => abs_of_nonneg (h x hx)), List.map_id']
  refine ⟨?_, hmap, ?_⟩
  · rw [feature_loss_function, hmap]
  · rw [feature_loss_function, hmap]
    exact List.sum_nonneg h

/-- Claim C9: with normalize = false, the training pipeline of
build_cifar contains no Normalize step while the validation pipeline is
exactly ToTensor followed by the dataset-specific Normalize; the
normalize parameter leaves the validation pipeline unchanged and with
normalize = true only appends the Normalize step to the training
pipeline. -/
theorem C9_normalize_only_train (u d : Bool) :
    (∀ t ∈ (build_cifar u d false).1.transform, isNormalize t = false)
      ∧ (build_cifar u d false).2.transform
          = [Transform.toTensor,
              Transform.normalize (if u then cifar10Mean else cifar100Mean)
                (if u then cifar10Std else cifar100Std)]
      ∧ (build_cifar u d false).2 = (build_cifar u d true).2
      ∧ (build_cifar u d true).1.transform
          = (build_cifar u d false).1.transform
            ++ [Transform.normalize (if u then cifar10Mean else cifar100Mean)
                (if u then cifar10Std else cifar100Std)] := by
  cases u <;> cases d <;> exact ⟨by decide, rfl, rfl, rfl⟩

/-- Claim C5: the --amp flag flips args.amp away from its default, and
each batch runs exactly one of two step paths: with args.amp the loss
is computed inside the cuda float16 autocast block and the update goes
through scaler.scale(loss).backward(), scaler.step(optimizer),
scaler.update() with a GradScaler constructed at startup; without it,
plain loss.backward() and optimizer.step(), and the scaler is None. -/
theorem C5_amp_two_paths :
    ampValue false = true ∧ ampValue true = false
      ∧ batchOps true
          = [TrainOp.zeroGrad, TrainOp.autocastF16Begin, TrainOp.computeLossOp,
              TrainOp.scalerScaleBackward, TrainOp.scalerStep,
              TrainOp.scalerUpdate, TrainOp.autocastF16End]
      ∧ batchOps false
          = [TrainOp.zeroGrad, TrainOp.computeLossOp, TrainOp.backward,
              TrainOp.optimizerStep]
      ∧ scalerInit true = some () ∧ scalerInit false = none
      ∧ (∀ a : Bool, batchOps a = batchOps true ∨ batchOps a = batchOps false)
      ∧ batchOps true ≠ batchOps false := by
  decide

/-- Claim C3, evaluation at the failing input: with --lr 0.01 parsed
into args.lr = 1/100, the SGD optimizer of line 199 is still
constructed with learning rate 1/10, so the constructed rate differs
from args.lr. -/
theorem C3_lr_flag_ignored :
    optimizerLr { lr := 1 / 100 } = 1 / 10
      ∧ Args.lr { lr := 1 / 100 } = 1 / 100
      ∧ optimizerLr { lr := 1 / 100 } ≠ Args.lr { lr := 1 / 100 } := by
  refine ⟨rfl, rfl, ?_⟩
  intro h
  simp only [optimizerLr, Args.lr] at h
  norm_num at h

set_option maxRecDepth 4000 in
/-- Claim C2, evaluation at the failing point: line 138 of main.py
leaves one parenthesis unclosed (outside its string literal), so the
statement cannot end on that line and the module fails to parse. -/
theorem C2_line138_unbalanced : pythonParenBalance line138 = 1 := by
  decide

/-- Claim C8: compute_loss is a pure function of the forward outputs,
the target and the hyperparameters: any two evaluations whose models
return identical outputs on their inputs yield identical results, with
no dependence on the model or input beyond the outputs and no state. -/
theorem C8_compute_loss_deterministic {I J : Type} (E : ExpLog)
    (m1 : I → Outputs) (m2 : J → Outputs) (i : I) (j : J)
    (target : List ℕ) (alpha beta temperature : ℚ)
    (h : m1 i = m2 j) :
    compute_loss E m1 i target alpha beta temperature
      = compute_loss E m2 j target alpha beta temperature := by
  simp only [compute_loss, h]

/-- Witness for C8 at concrete models agreeing on concrete inputs. -/
theorem C8_compute_loss_deterministic_witness :
    exampleModelA true = exampleModelB ()
      ∧ compute_loss idExpLog exampleModelA true [0]
            defaultAlpha defaultBeta defaultTemperature
        = compute_loss idExpLog exampleModelB () [0]
            defaultAlpha defaultBeta defaultTemperature :=
  ⟨rfl, C8_compute_loss_deterministic idExpLog exampleModelA exampleModelB
    true () [0] defaultAlpha defaultBeta defaultTemperature rfl⟩

lemma foldl_trainBatchStep (batches : List (ℚ × ℕ)) :
    ∀ st : TrainState,
      batches.foldl trainBatchStep st
        = { running_loss := st.running_loss + (batches.map Prod.fst).sum,
            total := st.total + (batches.map (fun b => ((b.2 : ℚ)))).sum,
            correct := st.correct } := by
  induction batches with
  | nil => intro st; simp
  | cons b bs ih =>
    intro st
    rw [List.foldl_cons, ih]
    simp only [trainBatchStep, List.map_cons, List.sum_cons, TrainState.mk.injEq]
    refine ⟨by ring, by ring, trivial⟩

/-- Claim C6: on a nonempty loader, train returns
(running_loss / total, 0, elapsed minutes): correct starts at 0
and no statement of the batch loop updates it, so the reported training
accuracy 100 * correct / total is 0 whatever the model predicts. -/
theorem C6_train_acc_zero (batches : List (ℚ × ℕ)) (elapsed : ℚ)
    (_hne : batches ≠ []) :
    train batches elapsed
      = ((batches.map Prod.fst).sum / (batches.map (fun b => ((b.2 : ℚ)))).sum,
          0, elapsed) := by
  rw [train, foldl_trainBatchStep]
  simp

/-- Witness for C6 on a concrete two-batch loader. -/
theorem C6_train_acc_zero_witness :
    ([((2 : ℚ), 5), ((3 : ℚ), 5)] : List (ℚ × ℕ)) ≠ []
      ∧ train [((2 : ℚ), 5), ((3 : ℚ), 5)] 1
        = ((([((2 : ℚ), 5), ((3 : ℚ), 5)] : List (ℚ × ℕ)).map Prod.fst).sum
              / (([((2 : ℚ), 5), ((3 : ℚ), 5)] : List (ℚ × ℕ)).map
                  (fun b => ((b.2 : ℚ)))).sum,
            0, 1) :=
  ⟨by decide, C6_train_acc_zero [((2 : ℚ), 5), ((3 : ℚ), 5)] 1 (by decide)⟩

/-- Claim C7: no stage of the script catches exceptions: a failure
raised by dataset construction, model instantiation, a training pass,
an evaluation pass, or the checkpoint write makes the whole script
return exactly that error; and when the setup stages succeed, the
script is the bare epoch loop. -/
theorem C7_exceptions_propagate {ε δ μ : Type} (buildData : Except ε δ)
    (mkModel : δ → Except ε μ) (trainOne : μ → Except ε μ)
    (testOne : μ → Except ε ℚ) (saveCkpt : μ → Except ε Unit)
    (epochs : ℕ) (e : ε) :
    (buildData = Except.error e →
        mainScript buildData mkModel trainOne testOne saveCkpt epochs
          = Except.error e)
      ∧ (∀ d, buildData = Except.ok d → mkModel d = Except.error e →
          mainScript buildData mkModel trainOne testOne saveCkpt epochs
            = Except.error e)
      ∧ (∀ n m best, trainOne m = Except.error e →
          epochBody trainOne testOne saveCkpt (n + 1) m best = Except.error e)
      ∧ (∀ n m best m2, trainOne m = Except.ok m2 →
          testOne m2 = Except.error e →
          epochBody trainOne testOne saveCkpt (n + 1) m best = Except.error e)
      ∧ (∀ n m best m2 facc, trainOne m = Except.ok m2 →
          testOne m2 = Except.ok facc → best < facc →
          saveCkpt m2 = Except.error e →
          epochBody trainOne testOne saveCkpt (n + 1) m best = Except.error e)
      ∧ (∀ d m, buildData = Except.ok d → mkModel d = Except.ok m →
          mainScript buildData mkModel trainOne testOne saveCkpt epochs
            = epochBody trainOne testOne saveCkpt epochs m 0) := by
  refine ⟨?_, ?_, ?_, ?_, ?_, ?_⟩
  · intro h
    simp only [mainScript]
    rw [h]
    rfl
  · intro d hb hm
    simp only [mainScript]
    rw [hb]
    show mkModel d >>= _ = Except.error e
    rw [hm]
    rfl
  · intro n m best h
    simp only [epochBody]
    rw [h]
    rfl
  · intro n m best m2 h1 h2
    simp only [epochBody]
    rw [h1]
    show testOne m2 >>= _ = Except.error e
    rw [h2]
    rfl
  · intro n m best m2 facc h1 h2 hlt h3
    simp only [epochBody]
    rw [h1]
    show testOne m2 >>= _ = Except.error e
    rw [h2]
    show (if best < facc then _ else _) = Except.error e
    rw [if_pos hlt]
    show saveCkpt m2 >>= _ = Except.error e
    rw [h3]
    rfl
  · intro d m hb hm
    simp only [mainScript]
    rw [hb]
    show mkModel d >>= _ = _
    rw [hm]
    rfl

/-- Witness for C7: a concrete failing dataset stage makes the whole
script fail with the same error. -/
theorem C7_exceptions_propagate_witness :
    (Except.error 7 : Except ℕ Unit) = Except.error 7
      ∧ mainScript (Except.error 7 : Except ℕ Unit)
          (fun _ => Except.ok ()) (fun m => Except.ok m)
          (fun _ => Except.ok 1) (fun _ => Except.ok ()) 3
        = Except.error 7 :=
  ⟨rfl,
    (C7_exceptions_propagate (Except.error 7 : Except ℕ Unit)
      (fun _ => Except.ok ()) (fun m => Except.ok m)
      (fun _ => Except.ok 1) (fun _ => Except.ok ()) 3 7).1 rfl⟩

lemma epochStep_bestAcc (s : LoopState) (e : ℕ) (a : ℚ) :
    (epochStep s e a).bestAcc = bestStep s.bestAcc a := by
  unfold epochStep bestStep
  split <;> rfl

lemma epochLoop_bestAcc (accs : List ℚ) :
    ∀ e s, (epochLoop e s accs).bestAcc = accs.foldl bestStep s.bestAcc := by
  induction accs with
  | nil => intro e s; rfl
  | cons a rest ih =>
    intro e s
    rw [epochLoop, List.foldl_cons, ih, epochStep_bestAcc]

lemma bestStep_eq_max (b a : ℚ) : bestStep b a = max b a := by
  unfold bestStep
  rcases lt_or_ge b a with h | h
  · rw [if_pos h, max_eq_right h.le]
  · rw [if_neg (not_lt.mpr h), max_eq_left h]

lemma foldl_bestStep_eq_foldl_max (l : List ℚ) :
    ∀ b, l.foldl bestStep b = l.foldl max b := by
  induction l with
  | nil => intro b; rfl
  | cons a t ih =>
    intro b
    rw [List.foldl_cons, List.foldl_cons, bestStep_eq_max, ih]

lemma le_foldl_max (l : List ℚ) : ∀ b, b ≤ l.foldl max b := by
  induction l with
  | nil => intro b; exact le_refl b
  | cons a t ih =>
    intro b
    exact le_trans (le_max_left b a) (ih (max b a))

lemma mem_le_foldl_max (l : List ℚ) :
    ∀ b a, a ∈ l → a ≤ l.foldl max b := by
  induction l with
  | nil => intro b a h; exact absurd h (List.not_mem_nil a)
  | cons c t ih =>
    intro b a h
    rcases List.mem_cons.mp h with h | h
    · subst h
      exact le_trans (le_max_right b a) (le_foldl_max t (max b a))
    · exact ih (max b c) a h

lemma foldl_max_mem (l : List ℚ) :
    ∀ b, l.foldl max b = b ∨ l.foldl max b ∈ l := by
  induction l with
  | nil => intro b; exact Or.inl rfl
  | cons a t ih =>
    intro b
    rcases ih (max b a) with h | h
    · rcases max_choice b a with hm | hm
      · exact Or.inl (by rw [List.foldl_cons, h, hm])
      · exact Or.inr (by rw [List.foldl_cons, h, hm]; exact List.mem_cons_self a t)
    · exact Or.inr (List.mem_cons_of_mem a h)

lemma epochLoop_append (l1 l2 : List ℚ) :
    ∀ e s, epochLoop e s (l1 ++ l2)
      = epochLoop (e + l1.length) (epochLoop e s l1) l2 := by
  induction l1 with
  | nil => intro e s; simp [epochLoop]
  | cons a t ih =>
    intro e s
    show epochLoop (e + 1) (epochStep s e a) (t ++ l2)
      = epochLoop (e + (t.length + 1)) (epochLoop (e + 1) (epochStep s e a) t) l2
    rw [ih]
    have hn : e + 1 + t.length = e + (t.length + 1) := by omega
    rw [hn]

lemma epochLoop_saved_lower (accs : List ℚ) :
    ∀ e s k, k ∈ (epochLoop e s accs).saved → k ∈ s.saved ∨ e ≤ k := by
  induction accs with
  | nil => intro e s k h; exact Or.inl h
  | cons a t ih =>
    intro e s k h
    rcases ih (e + 1) (epochStep s e a) k h with h1 | h2
    · unfold epochStep at h1
      split at h1
      · rcases List.mem_append.mp h1 with h1 | h1
        · exact Or.inl h1
        · simp only [List.mem_singleton] at h1
          exact Or.inr (le_of_eq h1.symm)
      · exact Or.inl h1
    · exact Or.inr (by omega)

lemma epochLoop_saved_upper (accs : List ℚ) :
    ∀ e s k, k ∈ (epochLoop e s accs).saved →
      k ∈ s.saved ∨ k < e + accs.length := by
  induction accs with
  | nil => intro e s k h; exact Or.inl h
  | cons a t ih =>
    intro e s k h
    rcases ih (e + 1) (epochStep s e a) k h with h1 | h2
    · unfold epochStep at h1
      split at h1
      · rcases List.mem_append.mp h1 with h1 | h1
        · exact Or.inl h1
        · simp only [List.mem_singleton] at h1
          exact Or.inr (by simp only [List.length_cons]; omega)
      · exact Or.inl h1
    · exact Or.inr (by simp only [List.length_cons]; omega)

lemma epochLoop_saved_mono (accs : List ℚ) :
    ∀ e s k, k ∈ s.saved → k ∈ (epochLoop e s accs).saved := by
  induction accs with
  | nil => intro e s k h; exact h
  | cons a t ih =>
    intro e s k h
    refine ih (e + 1) (epochStep s e a) k ?_
    unfold epochStep
    split
    · exact List.mem_append.mpr (Or.inl h)
    · exact h

lemma take_length_of_lt {l : List ℚ} {k : ℕ} (hk : k ≤ l.length) :
    (l.take k).length = k := by
  rw [List.length_take]
  omega

lemma runLoop_saved_iff (accs : List ℚ) (k : ℕ) (hk : k < accs.length) :
    k ∈ (runLoop accs).saved ↔ bestAfter (accs.take k) < accs.getD k 0 := by
  have hsplit : accs.take (k + 1) ++ accs.drop (k + 1) = accs :=
    List.take_append_drop _ _
  have htake : accs.take (k + 1) = accs.take k ++ [accs.getD k 0] := by
    rw [List.take_succ]
    congr 1
    rw [List.getElem?_eq_getElem hk]
    rw [List.getD_eq_getElem accs 0 hk]
    rfl
  have hlen1 : (accs.take (k + 1)).length = k + 1 := take_length_of_lt (by omega)
  have hlenk : (accs.take k).length = k := take_length_of_lt (by omega)
  have h1 : runLoop accs
      = epochLoop (k + 1)
          (epochLoop 0 { bestAcc := 0, bestEpoch := 0, saved := [] }
            (accs.take (k + 1)))
          (accs.drop (k + 1)) := by
    conv_lhs => rw [runLoop, ← hsplit]
    rw [epochLoop_append, hlen1, Nat.zero_add]
  have h2 : epochLoop 0 { bestAcc := 0, bestEpoch := 0, saved := [] }
        (accs.take (k + 1))
      = epochStep
          (epochLoop 0 { bestAcc := 0, bestEpoch := 0, saved := [] }
            (accs.take k))
          k (accs.getD k 0) := by
    rw [htake, epochLoop_append, hlenk, Nat.zero_add]
    rfl
  set p := epochLoop 0 { bestAcc := 0, bestEpoch := 0, saved := [] }
    (accs.take k) with hp
  have hpbest : p.bestAcc = bestAfter (accs.take k) := by
    rw [hp, epochLoop_bestAcc, bestAfter]
  have hnotk : k ∉ p.saved := by
    intro hmem
    rcases epochLoop_saved_upper (accs.take k) 0
        { bestAcc := 0, bestEpoch := 0, saved := [] } k (hp ▸ hmem) with h | h
    · exact absurd h (List.not_mem_nil k)
    · rw [hlenk] at h
      omega
  constructor
  · intro hmem
    rw [h1] at hmem
    rcases epochLoop_saved_lower (accs.drop (k + 1)) (k + 1) _ k hmem with
      hmid | hge
    · rw [h2] at hmid
      unfold epochStep at hmid
      split at hmid
      · rw [hpbest] at *
        assumption
      · exact absurd hmid hnotk
    · omega
  · intro hlt
    rw [h1]
    refine epochLoop_saved_mono _ (k + 1) _ k ?_
    rw [h2]
    unfold epochStep
    rw [if_pos (by rw [hpbest]; exact hlt)]
    exact List.mem_append.mpr (Or.inr (List.mem_singleton.mpr rfl))

lemma testAccum_nonneg (batches : List (ℕ × ℕ)) :
    ∀ st : ℚ × ℚ, 0 ≤ st.1 → 0 ≤ st.2 →
      0 ≤ (batches.foldl testAccum st).1 ∧ 0 ≤ (batches.foldl testAccum st).2 := by
  induction batches with
  | nil => intro st h1 h2; exact ⟨h1, h2⟩
  | cons b t ih =>
    intro st h1 h2
    rw [List.foldl_cons]
    refine ih _ ?_ ?_
    · simp only [testAccum]
      exact add_nonneg h1 (by positivity)
    · simp only [testAccum]
      exact add_nonneg h2 (by positivity)

/-- Claim C4: torch.save runs at an epoch iff that epoch test accuracy
strictly exceeds best_acc, which starts at 0 and collects the running
maximum of the accuracies of all previous epochs; the tracked best is
the fold of the per-epoch maximum update, hence non-decreasing across
epochs, and (test accuracies being nonnegative, as test returns
100 * correct / total with nonnegative counts) it equals the maximum
accuracy seen so far, attained on some earlier epoch once one epoch has
run. -/
theorem C4_checkpoint_policy (accs : List ℚ) (hpos : ∀ a ∈ accs, 0 ≤ a) :
    (∀ k, k < accs.length →
        (k ∈ (runLoop accs).saved ↔ bestAfter (accs.take k) < accs.getD k 0))
      ∧ (runLoop accs).bestAcc = bestAfter accs
      ∧ (∀ k, bestAfter (accs.take k) ≤ bestAfter (accs.take (k + 1)))
      ∧ (∀ k, ∀ a ∈ accs.take k, a ≤ bestAfter (accs.take k))
      ∧ (∀ k, accs.take k ≠ [] → bestAfter (accs.take k) ∈ accs.take k)
      ∧ (∀ b : List (ℕ × ℕ), 0 ≤ test b) := by
  refine ⟨fun k hk => runLoop_saved_iff accs k hk, ?_, ?_, ?_, ?_, ?_⟩
  · rw [runLoop, epochLoop_bestAcc, bestAfter]
  · intro k
    rw [bestAfter, bestAfter, foldl_bestStep_eq_foldl_max,
      foldl_bestStep_eq_foldl_max, List.take_succ]
    cases h : accs[k]? with
    | none => simp
    | some a =>
      show (accs.take k).foldl max 0 ≤ ((accs.take k) ++ [a]).foldl max 0
      rw [List.foldl_append]
      exact le_max_left _ a
  · intro k a ha
    rw [bestAfter, foldl_bestStep_eq_foldl_max]
    exact mem_le_foldl_max (accs.take k) 0 a ha
  · intro k hne
    rw [bestAfter, foldl_bestStep_eq_foldl_max]
    rcases foldl_max_mem (accs.take k) 0 with h | h
    · rcases List.exists_cons_of_ne_nil hne with ⟨c, t, hct⟩
      have hcmem : c ∈ accs.take k := by rw [hct]; exact List.mem_cons_self c t
      have hcnn : 0 ≤ c := hpos c (List.mem_of_mem_take hcmem)
      have hcle : c ≤ (accs.take k).foldl max 0 :=
        mem_le_foldl_max (accs.take k) 0 c hcmem
      rw [h] at hcle
      have : c = 0 := le_antisymm hcle hcnn
      rw [h, ← this]
      exact hcmem
    · exact h
  · intro b
    rw [test]
    have h := testAccum_nonneg b (0, 0) (le_refl 0) (le_refl 0)
    exact div_nonneg (mul_nonneg (by norm_num) h.1) h.2

/-- Witness for C4 on the concrete accuracy sequence [50, 40, 60]. -/
theorem C4_checkpoint_policy_witness :
    (∀ a ∈ ([50, 40, 60] : List ℚ), 0 ≤ a)
      ∧ ((∀ k, k < ([50, 40, 60] : List ℚ).length →
            (k ∈ (runLoop [50, 40, 60]).saved ↔
              bestAfter (([50, 40, 60] : List ℚ).take k)
                < ([50, 40, 60] : List ℚ).getD k 0))
        ∧ (runLoop [50, 40, 60]).bestAcc = bestAfter ([50, 40, 60] : List ℚ)
        ∧ (∀ k, bestAfter (([50, 40, 60] : List ℚ).take k)
            ≤ bestAfter (([50, 40, 60] : List ℚ).take (k + 1)))
        ∧ (∀ k, ∀ a ∈ ([50, 40, 60] : List ℚ).take k,
            a ≤ bestAfter (([50, 40, 60] : List ℚ).take k))
        ∧ (∀ k, ([50, 40, 60] : List ℚ).take k ≠ [] →
            bestAfter (([50, 40, 60] : List ℚ).take k)
              ∈ ([50, 40, 60] : List ℚ).take k)
        ∧ (∀ b : List (ℕ × ℕ), 0 ≤ test b)) :=
  ⟨by decide, C4_checkpoint_policy [50, 40, 60] (by decide)⟩

end JointASNN
